import Mathlib

/-!
Shallow embedding of `src/.netlify/functions/api.js` (genio-criativo), a
Netlify serverless function that gates a two-stage generation pipeline
(script generation, then per-scene image generation) behind a shared daily
quota counter.

Modelling conventions:
* JavaScript values flowing through the handler are modelled by `JsonVal`.
* `JSON.parse` of the request body is modelled by `Request.body :
  Except String JsonVal`; `.error msg` stands for `JSON.parse` throwing a
  `SyntaxError` whose `.message` is `msg`.
* The text returned by the Gemini call and then `JSON.parse`d
  (`data.candidates[0].content.parts[0].text`) is modelled at the level of
  its parse result, `GeminiFetchResult.scriptJson : Option JsonVal`;
  `none` stands for the extraction chain or `JSON.parse` throwing.
* `new Date().toISOString().split('T')[0]` (the current UTC calendar date)
  is a parameter `today : String` of the handler.
* The in-memory store `global.counterState` is threaded explicitly: the
  handler takes the stored `QuotaState` and returns in `finalState` the
  stored state after the invocation (`updateCounterState` is the only
  write).
* Each per-scene image `fetch` chain has an outcome drawn from
  `ImageCallOutcome`; `.fail` covers every path that lands in the
  `.catch` (transport error, non-ok status, `res.json()` or the
  processing `.then` throwing).
-/

namespace GenioCriativo

/-- JSON-like JavaScript values (numbers restricted to integers, which is
all the pipeline inspects). -/
inductive JsonVal where
  | null : JsonVal
  | bool : Bool → JsonVal
  | num : Int → JsonVal
  | str : String → JsonVal
  | arr : List JsonVal → JsonVal
  | obj : List (String × JsonVal) → JsonVal
deriving Repr, Inhabited

/-- JavaScript property access `v.key` on a parsed JSON value: field lookup
on objects, `undefined` (here `none`) on everything else. -/
def getField : JsonVal → String → Option JsonVal
  | .obj fields, key => fields.lookup key
  | _, _ => none

/-- JavaScript truthiness of a JSON value: `null`, `false`, `0` and `""` are
falsy; arrays and objects (even empty ones) are truthy. -/
def jsTruthy : JsonVal → Bool
  | .null => false
  | .bool b => b
  | .num n => n != 0
  | .str s => s != ""
  | .arr _ => true
  | .obj _ => true

/-- Truthiness of a possibly-`undefined` value (`none` = `undefined`,
which is falsy). -/
def jsTruthyOpt : Option JsonVal → Bool
  | none => false
  | some v => jsTruthy v

/-- JavaScript `Array.isArray` on a possibly-`undefined` value. -/
def isArrayOpt : Option JsonVal → Bool
  | some (.arr _) => true
  | _ => false

/-- JavaScript `s || fallback` on strings (empty string is falsy). -/
def jsOrElse (s fallback : String) : String :=
  if s = "" then fallback else s

/-- Test for the JavaScript `null` value (destructuring it throws). -/
def isNull : JsonVal → Bool
  | .null => true
  | _ => false

/-- Limite diário: `const GLOBAL_DAILY_LIMIT = 50`. -/
def GLOBAL_DAILY_LIMIT : Nat := 50

/-- The stored counter record `{ count, lastReset }` kept by
`getCounterState` / `updateCounterState`. -/
structure QuotaState where
  count : Nat
  lastReset : String
deriving DecidableEq, Repr

/-- Errors thrown by `generateScript`: the non-ok-status throw
(`'Falha ao gerar o roteiro...'`) and the catch-all around
extraction/parsing/shape checking
(`'A resposta ... não estava no formato esperado.'`). -/
inductive ScriptError where
  | upstream : ScriptError
  | malformed : ScriptError
deriving DecidableEq, Repr

/-- Outcome of the Gemini `fetch` as `generateScript` observes it:
`ok` is `response.ok`; `scriptJson` is the result of extracting
`data.candidates[0].content.parts[0].text` and `JSON.parse`-ing it,
with `none` standing for any throw along that chain. -/
structure GeminiFetchResult where
  ok : Bool
  scriptJson : Option JsonVal

/-- Embedding of `generateScript` (src/.netlify/functions/api.js lines
75-123): throw upstream error on non-ok status; otherwise extract and
parse the script JSON, throwing the malformed-response error when that
fails or when `!result.script || !Array.isArray(result.script)`; on
success return `result.script` as-is. -/
def generateScript (resp : GeminiFetchResult) : Except ScriptError (List JsonVal) :=
  if resp.ok = false then
    .error .upstream
  else
    match resp.scriptJson with
    | none => .error .malformed
    | some result =>
      let scriptField := getField result "script"
      if jsTruthyOpt scriptField = false || isArrayOpt scriptField = false then
        .error .malformed
      else
        match scriptField with
        | some (.arr scenes) => .ok scenes
        | _ => .error .malformed

/-- Placeholder returned when a successful image payload lacks a truthy
`imageUrl` field: `data.imageUrl || '...Imagem+Gerada'`. -/
def imageGeneratedPlaceholder : String :=
  "https://via.placeholder.com/1024x1024.png?text=Imagem+Gerada"

/-- Placeholder returned by the per-scene `.catch`:
`'...Falha+ao+Gerar'`. -/
def imageFailedPlaceholder : String :=
  "https://via.placeholder.com/1024x1024.png?text=Falha+ao+Gerar"

/-- Outcome of one per-scene image fetch chain. `.fail` is any path that
reaches the `.catch` handler: transport rejection, `!res.ok` throw,
`res.json()` throwing, or an error thrown while processing the payload.
`.success data` is the parsed payload reaching the second `.then`. -/
inductive ImageCallOutcome where
  | fail : ImageCallOutcome
  | success : JsonVal → ImageCallOutcome

/-- Result of one wrapped per-scene call (api.js lines 140-165): on
success, `data.imageUrl || imageGeneratedPlaceholder`; on any caught
failure, the failure placeholder. -/
def imageResult : ImageCallOutcome → JsonVal
  | .fail => .str imageFailedPlaceholder
  | .success data =>
    match getField data "imageUrl" with
    | some v => if jsTruthy v then v else .str imageGeneratedPlaceholder
    | none => .str imageGeneratedPlaceholder

/-- Embedding of `generateImages` (api.js lines 130-169):
`Promise.all(script.map(...))` issues one wrapped call per scene and
joins them positionally, so the result is aligned by index to the input
scenes; `outcome i` is the network outcome of the call for scene `i`
(in the source the joint await resolves in input order regardless of
per-call completion order, which the positional map captures). -/
def generateImages (script : List JsonVal) (outcome : Nat → ImageCallOutcome) : List JsonVal :=
  script.mapIdx fun i _ => imageResult (outcome i)

/-- An incoming Netlify event as the handler inspects it: the HTTP method
and the result of `JSON.parse(event.body)` (`.error msg` = the parse
throwing with message `msg`). -/
structure Request where
  httpMethod : String
  body : Except String JsonVal

/-- The outcomes of the upstream calls a single invocation would make:
the Gemini fetch and one image fetch per scene index. -/
structure Upstream where
  gemini : GeminiFetchResult
  image : Nat → ImageCallOutcome

/-- Response of one handler invocation plus the stored counter state after
it (`finalState` is `global.counterState` when the invocation returns;
the constant CORS headers are omitted). `body = none` models the 204
response without a body. -/
structure HandlerResult where
  statusCode : Nat
  body : Option JsonVal
  finalState : QuotaState

def methodNotAllowedMsg : String := "Método não permitido. Use POST."
def quotaExceededMsg : String := "Limite de gerações diárias atingido. Faça upgrade."
def missingFieldsMsg : String := "Os campos \"idea\" e \"duration\" são obrigatórios."
def upstreamErrMsg : String := "Falha ao gerar o roteiro. A API Gemini retornou um erro."
def malformedErrMsg : String := "A resposta da API de geração de roteiro não estava no formato esperado."
def internalErrMsg : String := "Ocorreu um erro interno no servidor."

/-- Modelled message of the TypeError raised by destructuring
`JSON.parse('null')`; the exact text is engine-specific. -/
def destructureNullMsg : String := "Cannot destructure property"

/-- Error body `JSON.stringify({ error: msg })`. -/
def errBody (msg : String) : Option JsonVal :=
  some (.obj [("error", .str msg)])

/-- Day-boundary reset (api.js lines 200-207): the local `state` after
`if (state.lastReset !== today) state = { count: 0, lastReset: today }`. -/
def effectiveState (stored : QuotaState) (today : String) : QuotaState :=
  if stored.lastReset ≠ today then { count := 0, lastReset := today } else stored

/-- Embedding of the exported `handler` (api.js lines 174-260), with
`today` the current UTC calendar date and `stored` the counter state
read by `getCounterState`. Control flow follows the source: OPTIONS
preflight, method check, lazy day reset, quota check (429 without any
write), `JSON.parse` of the body (a throw lands in the outer catch as
500), required-field truthiness check (400), increment + persist, Gemini
call, image fan-out, 200. Every throw reaching the outer catch yields
500 with `error.message || internalErrMsg`. -/
def handler (stored : QuotaState) (today : String) (req : Request) (up : Upstream) : HandlerResult :=
  if req.httpMethod = "OPTIONS" then
    { statusCode := 204, body := none, finalState := stored }
  else if req.httpMethod ≠ "POST" then
    { statusCode := 405, body := errBody methodNotAllowedMsg, finalState := stored }
  else
    let state := effectiveState stored today
    if GLOBAL_DAILY_LIMIT ≤ state.count then
      { statusCode := 429, body := errBody quotaExceededMsg, finalState := stored }
    else
      match req.body with
      | .error msg =>
        { statusCode := 500, body := errBody (jsOrElse msg internalErrMsg), finalState := stored }
      | .ok parsed =>
        if isNull parsed then
          { statusCode := 500, body := errBody (jsOrElse destructureNullMsg internalErrMsg),
            finalState := stored }
        else if !(jsTruthyOpt (getField parsed "idea"))
            || !(jsTruthyOpt (getField parsed "duration")) then
          { statusCode := 400, body := errBody missingFieldsMsg, finalState := stored }
        else
          let newState : QuotaState := { count := state.count + 1, lastReset := state.lastReset }
          match generateScript up.gemini with
          | .error .upstream =>
            { statusCode := 500, body := errBody (jsOrElse upstreamErrMsg internalErrMsg),
              finalState := newState }
          | .error .malformed =>
            { statusCode := 500, body := errBody (jsOrElse malformedErrMsg internalErrMsg),
              finalState := newState }
          | .ok script =>
            { statusCode := 200,
              body := some (.obj [("script", .arr script),
                                  ("images", .arr (generateImages script up.image))]),
              finalState := newState }

/-- A request that reaches the increment when quota allows: a POST whose
body parses to a non-null value with truthy `idea` and `duration`. -/
def validPost (req : Request) : Bool :=
  req.httpMethod == "POST" &&
  match req.body with
  | .ok parsed =>
    !(isNull parsed) && jsTruthyOpt (getField parsed "idea")
      && jsTruthyOpt (getField parsed "duration")
  | .error _ => false

/-- Stored counter state after a sequence of handler invocations on the
same calendar day, each with its own request and upstream outcomes. -/
def runHandler (today : String) : QuotaState → List (Request × Upstream) → QuotaState
  | st, [] => st
  | st, (req, up) :: rest => runHandler today (handler st today req up).finalState rest

/-! Concrete sample data used to instantiate the theorems below. -/

def d0 : String := "2026-10-11"

def sampleScene (k : Nat) : JsonVal :=
  .obj [("title", .str ("Cena " ++ toString k)),
        ("timing", .str "0-5s"),
        ("description", .str ("descrição " ++ toString k)),
        ("soundtrackSuggestion", .str "piano"),
        ("narrationScript", .str "narração")]

def sampleScript : List JsonVal := [sampleScene 0, sampleScene 1, sampleScene 2]

def sampleBody : JsonVal :=
  .obj [("idea", .str "a robot learns to paint"), ("duration", .num 30)]

def sampleReq : Request := { httpMethod := "POST", body := .ok sampleBody }

def geminiOk : GeminiFetchResult :=
  { ok := true, scriptJson := some (.obj [("script", .arr sampleScript)]) }

def imagesOk : Nat → ImageCallOutcome :=
  fun i => .success (.obj [("imageUrl", .str ("https://img.example/" ++ toString i))])

def sampleUp : Upstream := { gemini := geminiOk, image := imagesOk }

def upFailedGemini : Upstream :=
  { gemini := { ok := false, scriptJson := none }, image := imagesOk }

/-- Modelled from the spec (§3, §4.3): a Scene-shaped record carries the
five named string fields title, timing, description, soundtrackSuggestion
and narrationScript. The source never checks this shape; the definition
exists to compare the spec's parsing contract with `generateScript`. -/
def specSceneShaped (v : JsonVal) : Bool :=
  match getField v "title", getField v "timing", getField v "description",
      getField v "soundtrackSuggestion", getField v "narrationScript" with
  | some (.str _), some (.str _), some (.str _), some (.str _), some (.str _) => true
  | _, _, _, _, _ => false

/-- A POST request whose parsed body is an object with neither `idea` nor
`duration`. -/
def reqMissingFields : Request := { httpMethod := "POST", body := .ok (.obj []) }

/-- Image-call outcomes in which exactly the call for scene index 1 fails
and every other call succeeds with a resolved url. -/
def imagesOneFail : Nat → ImageCallOutcome :=
  fun i =>
    if i = 1 then .fail
    else .success (.obj [("imageUrl", .str ("https://img.example/" ++ toString i))])

def upOneFail : Upstream := { gemini := geminiOk, image := imagesOneFail }

def demoUrls : Nat → String := fun i => "https://img.example/" ++ toString i

/-- Two same-day invocations: one fully successful, one whose Gemini call
fails after admission. -/
def demoRuns : List (Request × Upstream) :=
  [(sampleReq, sampleUp), (sampleReq, upFailedGemini)]

/-! Structural lemmas about the handler. -/

theorem effectiveState_lastReset (stored : QuotaState) (today : String) :
    (effectiveState stored today).lastReset = today := by
  unfold effectiveState
  split
  · rfl
  · next h => exact not_not.mp h

/-- The stored state after an invocation: exactly one increment is
persisted when the request is a valid POST admitted under the limit, and
the store is untouched on every other path — independently of the
upstream outcomes `up`. -/
theorem handler_finalState (stored : QuotaState) (today : String) (req : Request) (up : Upstream) :
    (handler stored today req up).finalState =
      if validPost req = true ∧ (effectiveState stored today).count < GLOBAL_DAILY_LIMIT then
        { count := (effectiveState stored today).count + 1,
          lastReset := (effectiveState stored today).lastReset }
      else stored := by
  obtain ⟨m, body⟩ := req
  unfold handler validPost
  by_cases hop : m = "OPTIONS"
  · simp [hop]
  · by_cases hpost : m = "POST"
    · subst hpost
      by_cases hq : GLOBAL_DAILY_LIMIT ≤ (effectiveState stored today).count
      · have hq2 : ¬ (effectiveState stored today).count < GLOBAL_DAILY_LIMIT := not_lt.mpr hq
        rcases body with msg | parsed
        · simp [hop, hq, hq2]
        · cases hn : isNull parsed <;>
            cases hi : jsTruthyOpt (getField parsed "idea") <;>
            cases hd : jsTruthyOpt (getField parsed "duration") <;>
            simp [hop, hq, hq2, hn, hi, hd]
      · have hq2 : (effectiveState stored today).count < GLOBAL_DAILY_LIMIT := not_le.mp hq
        rcases body with msg | parsed
        · simp [hop, hq, hq2]
        · cases hn : isNull parsed <;>
            cases hi : jsTruthyOpt (getField parsed "idea") <;>
            cases hd : jsTruthyOpt (getField parsed "duration") <;>
            rcases hg : generateScript up.gemini with e | s <;>
            first
            | (cases e <;> simp [hop, hq, hq2, hn, hi, hd, hg])
            | simp [hop, hq, hq2, hn, hi, hd, hg]
    · simp [hop, hpost]

/-- A POST arriving while the (day-adjusted) count has reached the limit is
answered 429 with the quota error body, and the store is not written. -/
theorem handler_429_of_le (stored : QuotaState) (today : String) (req : Request) (up : Upstream)
    (hm : req.httpMethod = "POST")
    (hq : GLOBAL_DAILY_LIMIT ≤ (effectiveState stored today).count) :
    handler stored today req up =
      { statusCode := 429, body := errBody quotaExceededMsg, finalState := stored } := by
  obtain ⟨m, body⟩ := req
  dsimp only at hm
  subst hm
  unfold handler
  simp [hq]

/-- The response (status and body) of an invocation depends on the stored
state only through the day-adjusted `effectiveState`. -/
theorem handler_resp_congr (s1 s2 : QuotaState) (today : String) (req : Request) (up : Upstream)
    (h : effectiveState s1 today = effectiveState s2 today) :
    (handler s1 today req up).statusCode = (handler s2 today req up).statusCode ∧
    (handler s1 today req up).body = (handler s2 today req up).body := by
  obtain ⟨m, body⟩ := req
  unfold handler
  rw [h]
  by_cases hop : m = "OPTIONS"
  · simp [hop]
  · by_cases hpost : m = "POST"
    · subst hpost
      by_cases hq : GLOBAL_DAILY_LIMIT ≤ (effectiveState s2 today).count
      · simp [hop, hq]
      · rcases body with msg | parsed
        · simp [hop, hq]
        · cases hn : isNull parsed <;>
            cases hi : jsTruthyOpt (getField parsed "idea") <;>
            cases hd : jsTruthyOpt (getField parsed "duration") <;>
            rcases hg : generateScript up.gemini with e | s <;>
            first
            | (cases e <;> simp [hop, hq, hn, hi, hd, hg])
            | simp [hop, hq, hn, hi, hd, hg]
    · simp [hop, hpost]

/-- Iterating the handler over same-day valid POSTs below the limit
increments the stored counter once per invocation. -/
theorem runHandler_admitted (today : String) (runs : List (Request × Upstream)) :
    ∀ c : Nat, (∀ p ∈ runs, validPost p.1 = true) →
      c + runs.length ≤ GLOBAL_DAILY_LIMIT →
      runHandler today { count := c, lastReset := today } runs =
        { count := c + runs.length, lastReset := today } := by
  induction runs with
  | nil => intro c _ _; simp [runHandler]
  | cons p rest ih =>
    intro c hall hlim
    obtain ⟨r, u⟩ := p
    have hv : validPost r = true := hall (r, u) (List.mem_cons_self _ _)
    have hc : c < GLOBAL_DAILY_LIMIT := by
      simp only [List.length_cons] at hlim
      omega
    have heff : effectiveState { count := c, lastReset := today } today =
        { count := c, lastReset := today } := by
      simp [effectiveState]
    have hstep : (handler { count := c, lastReset := today } today r u).finalState =
        { count := c + 1, lastReset := today } := by
      rw [handler_finalState, heff]
      simp [hv, hc]
    rw [runHandler, hstep,
      ih (c + 1) (fun q hq => hall q (List.mem_cons_of_mem _ hq))
        (by simp only [List.length_cons] at hlim ⊢; omega)]
    have harith : c + 1 + rest.length = c + (rest.length + 1) := by omega
    simp [harith]

/-- C2. Rejection is mutation-free: when the (possibly day-reset) quota
state has count ≥ GLOBAL_DAILY_LIMIT, any POST is answered 429 with an
error-string body and the stored counter is untouched — in particular a
stored count of 50 under limit 50 stays 50. -/
theorem rejection_is_mutation_free (stored : QuotaState) (today : String)
    (req : Request) (up : Upstream)
    (hm : req.httpMethod = "POST")
    (hq : GLOBAL_DAILY_LIMIT ≤ (effectiveState stored today).count) :
    (handler stored today req up).statusCode = 429 ∧
    (handler stored today req up).body = errBody quotaExceededMsg ∧
    (handler stored today req up).finalState = stored := by
  rw [handler_429_of_le stored today req up hm hq]
  exact ⟨rfl, rfl, rfl⟩

/-- Witness for C2: stored state {count := 50, lastResetDate := today},
limit 50 — the request is rejected with 429 and the counter stays 50. -/
theorem rejection_is_mutation_free_witness :
    (handler { count := 50, lastReset := d0 } d0 sampleReq sampleUp).statusCode = 429 ∧
    (handler { count := 50, lastReset := d0 } d0 sampleReq sampleUp).body =
      errBody quotaExceededMsg ∧
    (handler { count := 50, lastReset := d0 } d0 sampleReq sampleUp).finalState =
      { count := 50, lastReset := d0 } :=
  rejection_is_mutation_free { count := 50, lastReset := d0 } d0 sampleReq sampleUp rfl
    (by decide)

/-- C10. Unparseable body maps to 500, not 400: when the quota is not
exhausted and `JSON.parse(event.body)` throws, the outer catch answers 500
with an error-string body, and no increment is persisted (parsing happens
before the increment). -/
theorem unparseable_body_maps_to_500 (stored : QuotaState) (today : String)
    (up : Upstream) (msg : String)
    (hq : (effectiveState stored today).count < GLOBAL_DAILY_LIMIT) :
    (handler stored today { httpMethod := "POST", body := .error msg } up).statusCode = 500 ∧
    (handler stored today { httpMethod := "POST", body := .error msg } up).body =
      errBody (jsOrElse msg internalErrMsg) ∧
    (handler stored today { httpMethod := "POST", body := .error msg } up).finalState =
      stored := by
  have hq2 : ¬ GLOBAL_DAILY_LIMIT ≤ (effectiveState stored today).count := not_le.mpr hq
  unfold handler
  simp [hq2]

/-- Witness for C10: a syntactically invalid body with quota at 3/50 is
answered 500 and the stored counter stays 3. -/
theorem unparseable_body_maps_to_500_witness :
    (handler { count := 3, lastReset := d0 } d0
        { httpMethod := "POST", body := .error "Unexpected token o in JSON" } sampleUp).statusCode
      = 500 ∧
    (handler { count := 3, lastReset := d0 } d0
        { httpMethod := "POST", body := .error "Unexpected token o in JSON" } sampleUp).body
      = errBody (jsOrElse "Unexpected token o in JSON" internalErrMsg) ∧
    (handler { count := 3, lastReset := d0 } d0
        { httpMethod := "POST", body := .error "Unexpected token o in JSON" } sampleUp).finalState
      = { count := 3, lastReset := d0 } :=
  unparseable_body_maps_to_500 { count := 3, lastReset := d0 } d0 sampleUp
    "Unexpected token o in JSON" (by decide)

/-- C9. Truthiness-based field validation: a parsed body whose `idea` is
the empty string or whose `duration` is 0 is answered 400 exactly like a
body in which the field is absent, because the check tests JavaScript
truthiness of the parsed values, not key presence (quota not exhausted). -/
theorem truthiness_field_validation (stored : QuotaState) (today : String)
    (up : Upstream) (p : JsonVal)
    (hq : (effectiveState stored today).count < GLOBAL_DAILY_LIMIT)
    (hnn : isNull p = false)
    (hf : getField p "idea" = some (.str "") ∨ getField p "duration" = some (.num 0)) :
    handler stored today { httpMethod := "POST", body := .ok p } up =
      { statusCode := 400, body := errBody missingFieldsMsg, finalState := stored } ∧
    (∀ q : JsonVal, isNull q = false →
      (getField q "idea" = none ∨ getField q "duration" = none) →
      handler stored today { httpMethod := "POST", body := .ok q } up =
        { statusCode := 400, body := errBody missingFieldsMsg, finalState := stored }) := by
  have hq2 : ¬ GLOBAL_DAILY_LIMIT ≤ (effectiveState stored today).count := not_le.mpr hq
  constructor
  · have hfalse : jsTruthyOpt (getField p "idea") = false ∨
        jsTruthyOpt (getField p "duration") = false := by
      rcases hf with h | h
      · exact Or.inl (by rw [h]; rfl)
      · exact Or.inr (by rw [h]; rfl)
    unfold handler
    rcases hfalse with h | h <;> simp [hq2, hnn, h]
  · intro q hqn hqf
    have hfalse : jsTruthyOpt (getField q "idea") = false ∨
        jsTruthyOpt (getField q "duration") = false := by
      rcases hqf with h | h
      · exact Or.inl (by rw [h]; rfl)
      · exact Or.inr (by rw [h]; rfl)
    unfold handler
    rcases hfalse with h | h <;> simp [hq2, hqn, h]

/-- Witness for C9: body `{idea: "", duration: 30}` at count 3/50 is
answered 400 with the missing-fields message and no mutation. -/
theorem truthiness_field_validation_witness :
    handler { count := 3, lastReset := d0 } d0
        { httpMethod := "POST",
          body := .ok (.obj [("idea", .str ""), ("duration", .num 30)]) } sampleUp =
      { statusCode := 400, body := errBody missingFieldsMsg,
        finalState := { count := 3, lastReset := d0 } } :=
  (truthiness_field_validation { count := 3, lastReset := d0 } d0 sampleUp
    (.obj [("idea", .str ""), ("duration", .num 30)]) (by decide) rfl (Or.inl rfl)).1

/-- Counterexample to C4 as stated: with the stored quota already at the
limit, a POST missing both required fields is answered 429, not 400 — in
the source the quota check runs before body validation, so the
missing-field response does depend on the quota state. -/
theorem validation_precedes_admission_cex :
    (handler { count := 50, lastReset := d0 } d0 reqMissingFields sampleUp).statusCode = 429 ∧
    (handler { count := 50, lastReset := d0 } d0 reqMissingFields sampleUp).statusCode ≠ 400 := by
  constructor
  · decide
  · decide

/-- C4 amended: a POST missing a required field is answered 400 with an
error-string body and no quota mutation, provided the day-adjusted count
has not reached the limit; when the limit is already reached the quota
check, which precedes validation in the source, answers 429 instead. -/
theorem missing_fields_rejected_without_quota_touch (stored : QuotaState) (today : String)
    (up : Upstream) (p : JsonVal)
    (hq : (effectiveState stored today).count < GLOBAL_DAILY_LIMIT)
    (hnn : isNull p = false)
    (hf : jsTruthyOpt (getField p "idea") = false ∨
      jsTruthyOpt (getField p "duration") = false) :
    (handler stored today { httpMethod := "POST", body := .ok p } up).statusCode = 400 ∧
    (handler stored today { httpMethod := "POST", body := .ok p } up).body =
      errBody missingFieldsMsg ∧
    (handler stored today { httpMethod := "POST", body := .ok p } up).finalState = stored := by
  have hq2 : ¬ GLOBAL_DAILY_LIMIT ≤ (effectiveState stored today).count := not_le.mpr hq
  unfold handler
  rcases hf with h | h <;> simp [hq2, hnn, h]

/-- Witness for C4 (amended): body `{}` at count 10/50 is answered 400
with the missing-fields message and the counter stays 10. -/
theorem missing_fields_rejected_without_quota_touch_witness :
    (handler { count := 10, lastReset := d0 } d0 reqMissingFields sampleUp).statusCode = 400 ∧
    (handler { count := 10, lastReset := d0 } d0 reqMissingFields sampleUp).body =
      errBody missingFieldsMsg ∧
    (handler { count := 10, lastReset := d0 } d0 reqMissingFields sampleUp).finalState =
      { count := 10, lastReset := d0 } :=
  missing_fields_rejected_without_quota_touch { count := 10, lastReset := d0 } d0 sampleUp
    (.obj []) (by decide) rfl (Or.inl rfl)

/-- C1. Admission monotonicity: starting from stored count c on the same
UTC day, a sequence of N admitted requests leaves the counter at exactly
c+N; each admitted invocation persists exactly one increment and the
persisted state does not depend on the upstream outcomes (the write
happens before any upstream call); and once c+N reaches
GLOBAL_DAILY_LIMIT the next POST is rejected with 429. -/
theorem admission_monotonicity (today : String) (c : Nat) (runs : List (Request × Upstream))
    (hall : ∀ p ∈ runs, validPost p.1 = true)
    (hlim : c + runs.length ≤ GLOBAL_DAILY_LIMIT) :
    runHandler today { count := c, lastReset := today } runs =
      { count := c + runs.length, lastReset := today } ∧
    (∀ (st : QuotaState) (r : Request) (u u2 : Upstream),
      (handler st today r u).finalState = (handler st today r u2).finalState) ∧
    (c + runs.length = GLOBAL_DAILY_LIMIT →
      ∀ (r : Request) (u : Upstream), r.httpMethod = "POST" →
        (handler { count := c + runs.length, lastReset := today } today r u).statusCode
          = 429) := by
  refine ⟨runHandler_admitted today runs c hall hlim, ?_, ?_⟩
  · intro st r u u2
    rw [handler_finalState, handler_finalState]
  · intro hfull r u hm
    have hq : GLOBAL_DAILY_LIMIT ≤
        (effectiveState { count := c + runs.length, lastReset := today } today).count := by
      simp [effectiveState]
      omega
    rw [handler_429_of_le _ today r u hm hq]

/-- Witness for C1: two admitted requests (the second with a failing
Gemini call) starting from count 48 leave the counter at 50, and the next
POST is rejected with 429. -/
theorem admission_monotonicity_witness :
    runHandler d0 { count := 48, lastReset := d0 } demoRuns =
      { count := 48 + demoRuns.length, lastReset := d0 } ∧
    (handler { count := 48 + demoRuns.length, lastReset := d0 } d0 sampleReq
        sampleUp).statusCode = 429 :=
  ⟨(admission_monotonicity d0 48 demoRuns (by decide) (by decide)).1,
   (admission_monotonicity d0 48 demoRuns (by decide) (by decide)).2.2 (by decide)
     sampleReq sampleUp rfl⟩

/-- C3. Lazy day-boundary reset: whenever the stored lastResetDate
differs from today's UTC date — by one day or by many — the invocation
responds exactly as it would from the fresh state {count 0, today}
(effective count 0 before the increment), and persists {count 1, today}
exactly when it admits the request (nothing otherwise — no backfill, and
the reset itself is only ever applied by a request's own admission
check). -/
theorem lazy_day_boundary_reset (stored : QuotaState) (today : String)
    (req : Request) (up : Upstream)
    (hd : stored.lastReset ≠ today) :
    (handler stored today req up).statusCode =
      (handler { count := 0, lastReset := today } today req up).statusCode ∧
    (handler stored today req up).body =
      (handler { count := 0, lastReset := today } today req up).body ∧
    (handler stored today req up).finalState =
      (if validPost req = true then ({ count := 1, lastReset := today } : QuotaState)
       else stored) := by
  have heq : effectiveState stored today =
      effectiveState { count := 0, lastReset := today } today := by
    simp [effectiveState, hd]
  obtain ⟨h1, h2⟩ :=
    handler_resp_congr stored { count := 0, lastReset := today } today req up heq
  refine ⟨h1, h2, ?_⟩
  rw [handler_finalState]
  have heff : effectiveState stored today = { count := 0, lastReset := today } := by
    simp [effectiveState, hd]
  rw [heff]
  by_cases hv : validPost req = true
  · simp [hv, GLOBAL_DAILY_LIMIT]
  · simp [hv]

/-- Witness for C3: stored state {count 37, lastResetDate a week earlier}
behaves exactly like {count 0, today} and persists {count 1, today} on
the sample request. -/
theorem lazy_day_boundary_reset_witness :
    ((handler { count := 37, lastReset := "2026-10-04" } d0 sampleReq sampleUp).statusCode =
      (handler { count := 0, lastReset := d0 } d0 sampleReq sampleUp).statusCode) ∧
    ((handler { count := 37, lastReset := "2026-10-04" } d0 sampleReq sampleUp).body =
      (handler { count := 0, lastReset := d0 } d0 sampleReq sampleUp).body) ∧
    ((handler { count := 37, lastReset := "2026-10-04" } d0 sampleReq sampleUp).finalState =
      (if validPost sampleReq = true then ({ count := 1, lastReset := d0 } : QuotaState)
       else { count := 37, lastReset := "2026-10-04" })) :=
  lazy_day_boundary_reset { count := 37, lastReset := "2026-10-04" } d0 sampleReq sampleUp
    (by decide)

/-- C5. Quota consumed on downstream failure: an admitted request persists
exactly one increment, the persisted state is independent of the upstream
outcomes (the write precedes the upstream calls), and when the script
generation then fails the response is a 500 while the persisted counter
still reflects the increment — no rollback. -/
theorem quota_consumed_on_downstream_failure (stored : QuotaState) (today : String)
    (req : Request) (up : Upstream) (e : ScriptError)
    (hv : validPost req = true)
    (hq : (effectiveState stored today).count < GLOBAL_DAILY_LIMIT)
    (hg : generateScript up.gemini = .error e) :
    (handler stored today req up).statusCode = 500 ∧
    (handler stored today req up).finalState =
      { count := (effectiveState stored today).count + 1, lastReset := today } ∧
    (∀ u2 : Upstream,
      (handler stored today req u2).finalState = (handler stored today req up).finalState) := by
  refine ⟨?_, ?_, ?_⟩
  · obtain ⟨m, body⟩ := req
    rcases body with msg | parsed
    · simp [validPost] at hv
    · simp only [validPost, Bool.and_eq_true, beq_iff_eq, Bool.not_eq_true'] at hv
      obtain ⟨hm, ⟨hnn, hi⟩, hdur⟩ := hv
      subst hm
      have hq2 : ¬ GLOBAL_DAILY_LIMIT ≤ (effectiveState stored today).count := not_le.mpr hq
      unfold handler
      cases e <;> simp [hq2, hnn, hi, hdur, hg]
  · rw [handler_finalState]
    simp [hv, hq, effectiveState_lastReset]
  · intro u2
    rw [handler_finalState, handler_finalState]

/-- Witness for C5: from count 10/50 the sample request with a failing
Gemini upstream yields 500 and the persisted counter is 11. -/
theorem quota_consumed_on_downstream_failure_witness :
    (handler { count := 10, lastReset := d0 } d0 sampleReq upFailedGemini).statusCode = 500 ∧
    (handler { count := 10, lastReset := d0 } d0 sampleReq upFailedGemini).finalState =
      { count := (effectiveState { count := 10, lastReset := d0 } d0).count + 1,
        lastReset := d0 } ∧
    (handler { count := 10, lastReset := d0 } d0 sampleReq sampleUp).finalState =
      (handler { count := 10, lastReset := d0 } d0 sampleReq upFailedGemini).finalState :=
  ⟨(quota_consumed_on_downstream_failure { count := 10, lastReset := d0 } d0 sampleReq
      upFailedGemini .upstream (by decide) (by decide) rfl).1,
   (quota_consumed_on_downstream_failure { count := 10, lastReset := d0 } d0 sampleReq
      upFailedGemini .upstream (by decide) (by decide) rfl).2.1,
   (quota_consumed_on_downstream_failure { count := 10, lastReset := d0 } d0 sampleReq
      upFailedGemini .upstream (by decide) (by decide) rfl).2.2 sampleUp⟩

/-- C6. ImageFanout totality and order preservation: for every script of
length K and every assignment of per-call outcomes, generateImages is a
total function returning exactly K results, and the result at index i is
determined by scene i's call outcome alone — positional alignment
independent of completion order and of per-call failure. -/
theorem imageFanout_total_and_ordered (script : List JsonVal)
    (outcome : Nat → ImageCallOutcome) :
    (generateImages script outcome).length = script.length ∧
    ∀ (i : Nat) (h : i < (generateImages script outcome).length),
      (generateImages script outcome).get ⟨i, h⟩ = imageResult (outcome i) := by
  constructor
  · simp [generateImages]
  · intro i h
    have hs : i < script.length := by simpa [generateImages] using h
    exact List.get_mapIdx script (fun j _ => imageResult (outcome j)) i hs h

/-- Witness for C6 on the three-scene sample script. -/
theorem imageFanout_total_and_ordered_witness :
    (generateImages sampleScript imagesOk).length = sampleScript.length ∧
    (generateImages sampleScript imagesOk).get ⟨1, by decide⟩ = imageResult (imagesOk 1) :=
  ⟨(imageFanout_total_and_ordered sampleScript imagesOk).1,
   (imageFanout_total_and_ordered sampleScript imagesOk).2 1 (by decide)⟩

/-- C7. Per-scene failure isolation: when the call for scene i0 fails and
every other call resolves, the pipeline still answers 200 with one image
per scene; the result at i0 is the failure placeholder, every other index
carries its resolved url, and a successful payload lacking the imageUrl
field degrades to the generic image-generated placeholder. -/
theorem per_scene_failure_isolation (stored : QuotaState) (today : String)
    (req : Request) (up : Upstream) (script : List JsonVal) (i0 : Nat) (urls : Nat → String)
    (hv : validPost req = true)
    (hq : (effectiveState stored today).count < GLOBAL_DAILY_LIMIT)
    (hgem : generateScript up.gemini = .ok script)
    (hfail : up.image i0 = .fail)
    (hok : ∀ i, i < script.length → i ≠ i0 →
      up.image i = .success (.obj [("imageUrl", .str (urls i))]) ∧ urls i ≠ "") :
    (handler stored today req up).statusCode = 200 ∧
    (handler stored today req up).body =
      some (.obj [("script", .arr script),
                  ("images", .arr (generateImages script up.image))]) ∧
    (generateImages script up.image).length = script.length ∧
    (∀ (i : Nat) (h : i < (generateImages script up.image).length),
      (generateImages script up.image).get ⟨i, h⟩ =
        if i = i0 then .str imageFailedPlaceholder else .str (urls i)) ∧
    (∀ data : JsonVal, getField data "imageUrl" = none →
      imageResult (.success data) = .str imageGeneratedPlaceholder) := by
  have hq2 : ¬ GLOBAL_DAILY_LIMIT ≤ (effectiveState stored today).count := not_le.mpr hq
  obtain ⟨m, body⟩ := req
  rcases body with msg | parsed
  · simp [validPost] at hv
  · simp only [validPost, Bool.and_eq_true, beq_iff_eq, Bool.not_eq_true'] at hv
    obtain ⟨hm, ⟨hnn, hi⟩, hdur⟩ := hv
    subst hm
    refine ⟨?_, ?_, ?_, ?_, ?_⟩
    · unfold handler
      simp [hq2, hnn, hi, hdur, hgem]
    · unfold handler
      simp [hq2, hnn, hi, hdur, hgem]
    · simp [generateImages]
    · intro i h
      have hs : i < script.length := by simpa [generateImages] using h
      have hget : (generateImages script up.image).get ⟨i, h⟩ =
          imageResult (up.image i) :=
        List.get_mapIdx script (fun j _ => imageResult (up.image j)) i hs h
      rw [hget]
      by_cases hii : i = i0
      · subst hii
        rw [hfail]
        simp [imageResult]
      · obtain ⟨hsucc, hne⟩ := hok i hs hii
        rw [hsucc]
        simp [imageResult, getField, jsTruthy, hii, bne_iff_ne, hne]
    · intro data hdata
      simp [imageResult, hdata]

/-- Witness for C7: the sample request with the scene-1 image call failing
and scenes 0 and 2 resolving yields a 200 with three aligned images. -/
theorem per_scene_failure_isolation_witness :
    (handler { count := 10, lastReset := d0 } d0 sampleReq upOneFail).statusCode = 200 ∧
    (handler { count := 10, lastReset := d0 } d0 sampleReq upOneFail).body =
      some (.obj [("script", .arr sampleScript),
                  ("images", .arr (generateImages sampleScript upOneFail.image))]) ∧
    (generateImages sampleScript upOneFail.image).length = sampleScript.length ∧
    (∀ (i : Nat) (h : i < (generateImages sampleScript upOneFail.image).length),
      (generateImages sampleScript upOneFail.image).get ⟨i, h⟩ =
        if i = 1 then .str imageFailedPlaceholder else .str (demoUrls i)) ∧
    (∀ data : JsonVal, getField data "imageUrl" = none →
      imageResult (.success data) = .str imageGeneratedPlaceholder) :=
  per_scene_failure_isolation { count := 10, lastReset := d0 } d0 sampleReq upOneFail
    sampleScript 1 demoUrls (by decide) (by decide) rfl rfl
    (by
      intro i hi hne
      have h3 : i < 3 := by simpa [sampleScript] using hi
      interval_cases i
      · exact ⟨rfl, by decide⟩
      · exact absurd rfl hne
      · exact ⟨rfl, by decide⟩)

/-- Counterexample to C8 as stated: the source accepts a payload whose
script field is an array of records that are not Scene-shaped — it
returns the array as-is instead of failing with the malformed-response
error, so the "exactly when ... not a sequence of Scene-shaped records"
condition does not hold of the code. -/
theorem scriptGenerator_shape_not_validated_cex :
    generateScript { ok := true, scriptJson := some (.obj [("script", .arr [.obj []])]) } =
      .ok [.obj []] ∧
    specSceneShaped (.obj []) = false :=
  ⟨rfl, rfl⟩

/-- C8 amended: generateScript fails with the upstream error exactly when
the collaborator returns a non-success status; on success it fails with
the malformed-response error exactly when the payload yields no parsed
script JSON carrying a top-level "script" field that is an array; and
whenever that field is an array it is returned as-is, with no per-element
Scene-shape validation and no retries. -/
theorem scriptGenerator_failure_conditions (resp : GeminiFetchResult) :
    (generateScript resp = .error .upstream ↔ resp.ok = false) ∧
    (generateScript resp = .error .malformed ↔
      (resp.ok = true ∧
        ¬ ∃ r xs, resp.scriptJson = some r ∧ getField r "script" = some (.arr xs))) ∧
    (∀ (r : JsonVal) (xs : List JsonVal), resp.ok = true → resp.scriptJson = some r →
      getField r "script" = some (.arr xs) → generateScript resp = .ok xs) := by
  obtain ⟨ok, sj⟩ := resp
  cases ok
  · simp [generateScript]
  · cases sj with
    | none => simp [generateScript]
    | some r =>
      rcases hf : getField r "script" with _ | v
      · simp [generateScript, hf, jsTruthyOpt]
        intro r1 xs h
        subst h
        simp [hf]
      · cases v <;>
          simp [generateScript, hf, jsTruthyOpt, jsTruthy, isArrayOpt] <;>
          (intro r1 xs h; subst h) <;>
          simp [hf]

/-- Witness for C8 (amended): the sample Gemini payload parses to the
three-scene script. -/
theorem scriptGenerator_failure_conditions_witness :
    generateScript geminiOk = .ok sampleScript :=
  (scriptGenerator_failure_conditions geminiOk).2.2 (.obj [("script", .arr sampleScript)])
    sampleScript rfl rfl rfl

end GenioCriativo
